import Mathlib

/-
Verification of the per-conversation agent lifecycle manager of the nao
backend (apps/backend/src/utils.ts): the AgentService registry, the
AgentManager session, model-selection resolution, model-config loading,
Anthropic cache annotation, and the terminal handling of the stream and
generate paths.

Shallow embedding conventions:
- The persistence and environment collaborators (llmConfigQueries,
  getEnvApiKey, getEnvModelSelections, getDefaultModelId) live outside
  src/; they are abstracted as fields of an `Env` record, consulted
  exactly where the source consults them.
- The `Map<string, AgentManager>` registry is a function
  `String → Option Nat` from conversation id to session id; AbortController
  state and a ghost count of disposal-callback invocations are per-session
  functions on the session id.
- Side effects of the terminal paths (upsertMessage, the disposal
  callback) are recorded as an explicit effect trace.
-/

namespace Nao

/-! ### Messages and cache annotation (AgentManager._withAnthropicCache) -/

/-- The two cache retention tiers CACHE_1H and CACHE_5M from
agents/providers. -/
inductive CacheTTL where
  | oneHour
  | fiveMin
deriving DecidableEq, Repr

/-- Message roles of the ModelMessage union. -/
inductive Role where
  | system
  | user
  | assistant
  | tool
deriving DecidableEq, Repr

/-- The anthropic member of providerOptions: the cacheControl key plus any
other keys (preserved by the object spread in the source). -/
structure AnthropicOptions where
  cacheControl : Option CacheTTL
  extra : List (String × String)
deriving DecidableEq, Repr

/-- providerOptions of a message: the anthropic member plus any other
members (preserved by the object spread in the source). -/
structure ProviderOptions where
  anthropic : Option AnthropicOptions
  extra : List (String × String)
deriving DecidableEq, Repr

/-- A ModelMessage: role, content, and the optional providerOptions. -/
structure ModelMessage where
  role : Role
  content : String
  providerOptions : Option ProviderOptions
deriving DecidableEq, Repr

/-- The withCache closure of _withAnthropicCache: returns a copy of msg
whose providerOptions.anthropic.cacheControl is set to cache, spreading
(hence preserving) all other providerOptions and anthropic keys. -/
def withCache (msg : ModelMessage) (cache : CacheTTL) : ModelMessage :=
  { msg with
    providerOptions := some
      { anthropic := some
          { cacheControl := some cache
            extra :=
              ((msg.providerOptions.bind (fun po => po.anthropic)).map
                (fun ao => ao.extra)).getD [] }
        extra := (msg.providerOptions.map (fun po => po.extra)).getD [] } }

/-- The per-index body of the map inside _withAnthropicCache, with len
the length of the message list (so len - 1 is lastIdx). -/
def cacheStep (len idx : Nat) (msg : ModelMessage) : ModelMessage :=
  if idx = 0 ∧ msg.role = Role.system then withCache msg CacheTTL.oneHour
  else if idx = len - 1 ∧ idx ≠ 0 then withCache msg CacheTTL.fiveMin
  else msg

/-- AgentManager._withAnthropicCache: no-op unless the provider is
anthropic and the list is non-empty; otherwise the first message receives
the 1h marker when its role is system, and the last message receives the
5m marker when it is not also the first. -/
def withAnthropicCache (messages : List ModelMessage) (provider : String) :
    List ModelMessage :=
  if provider ≠ "anthropic" ∨ messages.isEmpty then messages
  else messages.mapIdx (fun idx msg => cacheStep messages.length idx msg)

/-! ### Model selection resolution and config loading (AgentService) -/

/-- A ModelSelection value: provider and model id. -/
structure ModelSelection where
  provider : String
  modelId : String
deriving DecidableEq, Repr

/-- A stored project LLM config row, as returned by llmConfigQueries. -/
structure LlmConfigRow where
  provider : String
  apiKey : String
  baseUrl : Option String
deriving DecidableEq, Repr

/-- The collaborators consulted by AgentService: stored project configs
(queries) and environment-derived data (utils/llm). -/
structure Env where
  getProjectLlmConfigs : String → List LlmConfigRow
  getProjectLlmConfigByProvider : String → String → Option LlmConfigRow
  getEnvModelSelections : List ModelSelection
  getEnvApiKey : String → Option String
  getDefaultModelId : String → String

/-- The message of the Error thrown when no tier yields a selection or
config (the spec calls this NoModelConfigured). -/
def noModelConfigMsg : String := "No model config found"

/-- AgentService._getResolvedModelSelection: explicit selection verbatim,
else first stored project config paired with its provider default model,
else first environment selection, else failure. -/
def getResolvedModelSelection (env : Env) (projectId : String)
    (modelSelection : Option ModelSelection) : Except String ModelSelection :=
  match modelSelection with
  | some ms => Except.ok ms
  | none =>
    match (env.getProjectLlmConfigs projectId).head? with
    | some config =>
        Except.ok { provider := config.provider
                    modelId := env.getDefaultModelId config.provider }
    | none =>
      match env.getEnvModelSelections.head? with
      | some envSelection => Except.ok envSelection
      | none => Except.error noModelConfigMsg

/-- Settings handed to createProviderModel: the api key and the optional
base URL (present only when a stored, truthy baseUrl exists). -/
structure ProviderSettings where
  apiKey : String
  baseURL : Option String
deriving DecidableEq, Repr

/-- The inputs of the createProviderModel call made by
AgentService._getModelConfig (createProviderModel itself is an external
provider-construction collaborator). -/
structure ResolvedModelConfig where
  provider : String
  settings : ProviderSettings
  modelId : String
deriving DecidableEq, Repr

/-- AgentService._getModelConfig: a stored per-project config for the
selection provider wins (its baseUrl is spread in only when truthy, i.e.
present and non-empty); otherwise an environment api key with no base URL;
otherwise failure. -/
def getModelConfig (env : Env) (projectId : String) (ms : ModelSelection) :
    Except String ResolvedModelConfig :=
  match env.getProjectLlmConfigByProvider projectId ms.provider with
  | some config =>
      Except.ok
        { provider := ms.provider
          settings :=
            { apiKey := config.apiKey
              baseURL :=
                match config.baseUrl with
                | some u => if u = "" then none else some u
                | none => none }
          modelId := ms.modelId }
  | none =>
    match env.getEnvApiKey ms.provider with
    | some envApiKey =>
        Except.ok
          { provider := ms.provider
            settings := { apiKey := envApiKey, baseURL := none }
            modelId := ms.modelId }
    | none => Except.error noModelConfigMsg

/-! ### The registry (AgentService) -/

/-- The chat handed to AgentService.create (UIChat with owner and
project). -/
structure AgentChat where
  id : String
  userId : String
  projectId : String
deriving DecidableEq, Repr

/-- Registry state. agents is the Map from chat id to the resident
session id; aborted is each session's AbortController.signal.aborted;
disposeCount is a ghost count of disposal-callback invocations;
createdFor is a ghost history of (chat id, session id) creations;
nextId generates fresh session ids. -/
structure ServiceState where
  agents : String → Option Nat
  aborted : Nat → Bool
  disposeCount : Nat → Nat
  createdFor : List (String × Nat)
  nextId : Nat

/-- The state of a fresh AgentService (empty Map, no sessions). -/
def initState : ServiceState :=
  { agents := fun _ => none
    aborted := fun _ => false
    disposeCount := fun _ => 0
    createdFor := []
    nextId := 0 }

/-- AgentManager.stop: abort the session's AbortController. It touches
nothing else: not the registry Map, not the disposal callback. -/
def stopAgent (st : ServiceState) (sid : Nat) : ServiceState :=
  { st with aborted := fun i => if i = sid then true else st.aborted i }

/-- The disposal callback passed to AgentManager:
() => this._agents.delete(chat.id). The ghost disposeCount records the
invocation. -/
def disposeCallback (st : ServiceState) (chatId : String) (sid : Nat) :
    ServiceState :=
  { st with
    agents := fun c => if c = chatId then none else st.agents c
    disposeCount := fun i =>
      if i = sid then st.disposeCount i + 1 else st.disposeCount i }

/-- AgentService._disposeAgent: if a session is resident for chatId, stop
it and delete its Map entry; otherwise do nothing. -/
def disposeAgent (st : ServiceState) (chatId : String) : ServiceState :=
  match st.agents chatId with
  | none => st
  | some sid =>
      let st1 := stopAgent st sid
      { st1 with agents := fun c => if c = chatId then none else st1.agents c }

/-- AgentService.create: first _disposeAgent(chat.id); then resolve the
model selection and load the model config (either may fail, leaving the
registry as _disposeAgent left it); on success install a fresh session
under chat.id. Returns the new session id. -/
def create (env : Env) (st : ServiceState) (chat : AgentChat)
    (modelSelection : Option ModelSelection) :
    Except String Nat × ServiceState :=
  let st1 := disposeAgent st chat.id
  match getResolvedModelSelection env chat.projectId modelSelection with
  | Except.error e => (Except.error e, st1)
  | Except.ok rms =>
    match getModelConfig env chat.projectId rms with
    | Except.error e => (Except.error e, st1)
    | Except.ok _ =>
        (Except.ok st1.nextId,
         { st1 with
           agents := fun c => if c = chat.id then some st1.nextId else st1.agents c
           createdFor := st1.createdFor ++ [(chat.id, st1.nextId)]
           nextId := st1.nextId + 1 })

/-- Whether create succeeds; this depends only on the environment and the
request, never on the registry state. -/
def createOk (env : Env) (chat : AgentChat)
    (modelSelection : Option ModelSelection) : Bool :=
  match getResolvedModelSelection env chat.projectId modelSelection with
  | Except.error _ => false
  | Except.ok rms =>
    match getModelConfig env chat.projectId rms with
    | Except.error _ => false
    | Except.ok _ => true

/-- One create request. -/
structure CreateReq where
  chat : AgentChat
  modelSelection : Option ModelSelection

/-- Run a sequence of create calls against the registry. -/
def runCreates (env : Env) : ServiceState → List CreateReq → ServiceState
  | st, [] => st
  | st, r :: rs => runCreates env (create env st r.chat r.modelSelection).2 rs

/-- Registry invariant: every resident session was created for its chat
id, and every session ever created is either still resident for its chat
id or has had stop invoked. -/
def RegInv (st : ServiceState) : Prop :=
  (∀ c sid, st.agents c = some sid → (c, sid) ∈ st.createdFor) ∧
  (∀ c sid, (c, sid) ∈ st.createdFor →
    st.agents c = some sid ∨ st.aborted sid = true)

/-! ### Terminal handling: the stream onFinish callback and generate -/

/-- The terminal event handed to the stream path's onFinish callback by
createUIMessageStream: the abort flag, the primitive's finish reason, and
the response message (its payload abstracted to a string). -/
structure StreamFinishEvent where
  isAborted : Bool
  finishReason : String
  responseMessage : String
deriving DecidableEq, Repr

/-- The record handed to chatQueries.upsertMessage (token usage omitted:
it is produced by the external convertToTokenUsage collaborator and never
inspected by this subsystem). -/
structure PersistRecord where
  message : String
  chatId : String
  stopReason : String
  error : Option String
  llmProvider : String
  llmModelId : String
deriving DecidableEq, Repr

/-- Observable side effects of a terminal path: a persistence write or an
invocation of the disposal callback. -/
inductive Effect where
  | upsertMessage (rec : PersistRecord)
  | dispose
deriving DecidableEq, Repr

/-- The stream path's onFinish callback: computes the stop reason
(interrupted when aborted, else the primitive's finish reason), upserts
the final message with it, then invokes the disposal callback. error is
whatever onError captured during the stream, none if nothing failed. -/
def streamOnFinish (chatId : String) (ms : ModelSelection)
    (error : Option String) (e : StreamFinishEvent) : List Effect :=
  [Effect.upsertMessage
     { message := e.responseMessage
       chatId := chatId
       stopReason := if e.isAborted then "interrupted" else e.finishReason
       error := error
       llmProvider := ms.provider
       llmModelId := ms.modelId },
   Effect.dispose]

/-- Number of disposal-callback invocations in an effect trace. -/
def countDispose (effects : List Effect) : Nat :=
  effects.countP (fun eff =>
    match eff with
    | Effect.dispose => true
    | _ => false)

/-- The result of the underlying generation primitive in the generate
path; finishReason is optional (the source defends against its absence
with a nullish-coalescing default). -/
structure GenerateResult where
  text : String
  finishReason : Option String
  responseMessages : List String
deriving DecidableEq, Repr

/-- Outcome of awaiting the generation primitive: fulfilled with a
result, or rejected (provider error or abort). -/
inductive GenOutcome where
  | ok (r : GenerateResult)
  | err (e : String)
deriving DecidableEq, Repr

/-- The fields of AgentRunResult this subsystem computes itself (usage,
cost and duration come from external collaborators and the clock). -/
structure AgentRunResultM where
  text : String
  finishReason : String
  responseMessages : List String
deriving DecidableEq, Repr

/-- AgentManager.generate: on fulfilment, builds the run result with
finishReason defaulted to stop when absent, and invokes the disposal
callback before returning; on rejection, the exception propagates and no
further statement of the method body runs. -/
def generateRun (outcome : GenOutcome) :
    Except String AgentRunResultM × List Effect :=
  match outcome with
  | GenOutcome.ok r =>
      (Except.ok
         { text := r.text
           finishReason := r.finishReason.getD "stop"
           responseMessages := r.responseMessages },
       [Effect.dispose])
  | GenOutcome.err e => (Except.error e, [])

/-! ### Concrete fixtures used by the witness theorems -/

/-- Environment with one stored project config for project p1 (provider
providerA) and one environment selection and key for provider providerB. -/
def envA : Env :=
  { getProjectLlmConfigs := fun pid =>
      if pid = "p1" then
        [{ provider := "providerA", apiKey := "storedKeyA"
           baseUrl := some "https://a.example" }]
      else []
    getProjectLlmConfigByProvider := fun pid p =>
      if pid = "p1" ∧ p = "providerA" then
        some { provider := "providerA", apiKey := "storedKeyA"
               baseUrl := some "https://a.example" }
      else none
    getEnvModelSelections := [{ provider := "providerB", modelId := "modelB" }]
    getEnvApiKey := fun p => if p = "providerB" then some "envKeyB" else none
    getDefaultModelId := fun p => p ++ "-default" }

/-- Environment with no stored configs, no environment selections and no
environment keys: every resolution tier fails. -/
def envNone : Env :=
  { getProjectLlmConfigs := fun _ => []
    getProjectLlmConfigByProvider := fun _ _ => none
    getEnvModelSelections := []
    getEnvApiKey := fun _ => none
    getDefaultModelId := fun p => p ++ "-default" }

/-- A chat for conversation c1 in project p1. -/
def chatC1 : AgentChat := { id := "c1", userId := "u1", projectId := "p1" }

/-- Two successive create requests for conversation c1. -/
def reqsC1 : List CreateReq :=
  [{ chat := chatC1, modelSelection := none },
   { chat := chatC1, modelSelection := none }]

/-- Environment with a stored config (no base URL) for provider providerC
on project p1 and nothing else. -/
def envStoredNoUrl : Env :=
  { getProjectLlmConfigs := fun pid =>
      if pid = "p1" then
        [{ provider := "providerC", apiKey := "keyC", baseUrl := none }]
      else []
    getProjectLlmConfigByProvider := fun pid p =>
      if pid = "p1" ∧ p = "providerC" then
        some { provider := "providerC", apiKey := "keyC", baseUrl := none }
      else none
    getEnvModelSelections := []
    getEnvApiKey := fun _ => none
    getDefaultModelId := fun p => p ++ "-default" }

/-- A system message fixture. -/
def msgSys : ModelMessage :=
  { role := Role.system, content := "instructions", providerOptions := none }

/-- A user message fixture. -/
def msgUser : ModelMessage :=
  { role := Role.user, content := "hi", providerOptions := none }

/-- An assistant message fixture. -/
def msgAsst : ModelMessage :=
  { role := Role.assistant, content := "ok", providerOptions := none }

/-- A registry state with a single resident session (id 7) for c1, used
to witness the failed-create eviction claim. -/
def stResident : ServiceState :=
  { agents := fun c => if c = "c1" then some 7 else none
    aborted := fun _ => false
    disposeCount := fun _ => 0
    createdFor := [("c1", 7)]
    nextId := 8 }

/-! ### Lemmas: cache annotation -/

theorem withCache_role (m : ModelMessage) (c : CacheTTL) :
    (withCache m c).role = m.role := rfl

theorem withCache_withCache (m : ModelMessage) (c : CacheTTL) :
    withCache (withCache m c) c = withCache m c := by
  simp [withCache]

theorem withAnthropicCache_of_ne (msgs : List ModelMessage) (provider : String)
    (h : provider ≠ "anthropic") : withAnthropicCache msgs provider = msgs := by
  unfold withAnthropicCache
  rw [if_pos (Or.inl h)]

theorem withAnthropicCache_nil (provider : String) :
    withAnthropicCache [] provider = [] := by
  unfold withAnthropicCache
  rw [if_pos (Or.inr (by simp))]

theorem length_withAnthropicCache (msgs : List ModelMessage) (provider : String) :
    (withAnthropicCache msgs provider).length = msgs.length := by
  unfold withAnthropicCache
  split
  · rfl
  · exact List.length_mapIdx

theorem cacheStep_role (len i : Nat) (m : ModelMessage) :
    (cacheStep len i m).role = m.role := by
  unfold cacheStep
  split
  · rfl
  · split <;> rfl

theorem cacheStep_idem (len i : Nat) (m : ModelMessage) :
    cacheStep len i (cacheStep len i m) = cacheStep len i m := by
  unfold cacheStep
  by_cases h0 : i = 0
  · by_cases hr : m.role = Role.system
    · simp [h0, hr, withCache_role, withCache_withCache]
    · simp [h0, hr]
  · by_cases hl : i = len - 1
    · have hne : ¬(len - 1 = 0) := by
        rw [← hl]
        exact h0
      simp [hl, hne, withCache_role, withCache_withCache]
    · simp [h0, hl]

theorem withAnthropicCache_getElem? (msgs : List ModelMessage) (i : Nat) :
    (withAnthropicCache msgs "anthropic")[i]? =
      (msgs[i]?).map (cacheStep msgs.length i) := by
  by_cases hE : msgs = []
  · subst hE
    simp [withAnthropicCache_nil]
  · unfold withAnthropicCache
    rw [if_neg]
    · rw [List.mapIdx_eq_enum_map, List.getElem?_map, List.getElem?_enum]
      cases msgs[i]? <;> rfl
    · simp [hE]

/-- C4: for provider anthropic and a non-empty message list, the first
message is annotated with the long-retention (1h) marker exactly when its
role is system, the last message is annotated with the short-retention
(5m) marker exactly when it is not also the first, interior messages are
returned unchanged, and for an empty list or any other provider the input
is returned unchanged. -/
theorem c4_cache_policy :
    (∀ (msgs : List ModelMessage) (provider : String), provider ≠ "anthropic" →
        withAnthropicCache msgs provider = msgs) ∧
    (∀ provider : String, withAnthropicCache [] provider = []) ∧
    (∀ (m : ModelMessage) (msgs : List ModelMessage),
        (withAnthropicCache (m :: msgs) "anthropic")[0]? =
          some (if m.role = Role.system then withCache m CacheTTL.oneHour else m)) ∧
    (∀ (msgs : List ModelMessage) (i : Nat), 0 < i → i < msgs.length - 1 →
        (withAnthropicCache msgs "anthropic")[i]? = msgs[i]?) ∧
    (∀ (msgs : List ModelMessage) (i : Nat), 0 < i → i = msgs.length - 1 →
        (withAnthropicCache msgs "anthropic")[i]? =
          (msgs[i]?).map (fun m => withCache m CacheTTL.fiveMin)) ∧
    (∀ m : ModelMessage,
        withAnthropicCache [m] "anthropic" =
          [if m.role = Role.system then withCache m CacheTTL.oneHour else m]) := by
  refine ⟨withAnthropicCache_of_ne, withAnthropicCache_nil, ?_, ?_, ?_, ?_⟩
  · intro m msgs
    rw [withAnthropicCache_getElem?]
    by_cases h : m.role = Role.system <;> simp [cacheStep, h]
  · intro msgs i h0 hlt
    rw [withAnthropicCache_getElem?]
    have h1 : ¬(i = 0) := Nat.pos_iff_ne_zero.mp h0
    have h2 : ¬(i = msgs.length - 1) := Nat.ne_of_lt hlt
    cases hm : msgs[i]? with
    | none => rfl
    | some m =>
      simp only [Option.map_some']
      unfold cacheStep
      rw [if_neg (fun hc => h1 hc.1), if_neg (fun hc => h2 hc.1)]
  · intro msgs i h0 hl
    rw [withAnthropicCache_getElem?]
    have h1 : ¬(i = 0) := Nat.pos_iff_ne_zero.mp h0
    cases hm : msgs[i]? with
    | none => rfl
    | some m =>
      simp only [Option.map_some']
      unfold cacheStep
      rw [if_neg (fun hc => h1 hc.1), if_pos ⟨hl, h1⟩]
  · intro m
    apply List.ext_getElem?
    intro i
    rw [withAnthropicCache_getElem?]
    cases i with
    | zero => by_cases h : m.role = Role.system <;> simp [cacheStep, h]
    | succ j => rfl

/-- C5: re-applying the cache-annotation strategy yields the same result
as a single application, for every message list and provider; markers are
replaced, never compounded. -/
theorem c5_cache_idempotent (msgs : List ModelMessage) (provider : String) :
    withAnthropicCache (withAnthropicCache msgs provider) provider =
      withAnthropicCache msgs provider := by
  by_cases hp : provider = "anthropic"
  · subst hp
    apply List.ext_getElem?
    intro i
    rw [withAnthropicCache_getElem? (withAnthropicCache msgs "anthropic") i,
        withAnthropicCache_getElem? msgs i, length_withAnthropicCache]
    cases hm : msgs[i]? with
    | none => rfl
    | some m =>
      simp only [Option.map_some']
      rw [cacheStep_idem]
  · rw [withAnthropicCache_of_ne _ _ hp, withAnthropicCache_of_ne _ _ hp]

/-! ### Lemmas: the registry -/

theorem disposeAgent_agents_self (st : ServiceState) (cid : String) :
    (disposeAgent st cid).agents cid = none := by
  unfold disposeAgent
  cases h : st.agents cid with
  | none => exact h
  | some sid => simp [stopAgent]

theorem disposeAgent_agents_other (st : ServiceState) (cid c : String)
    (h : ¬(c = cid)) : (disposeAgent st cid).agents c = st.agents c := by
  unfold disposeAgent
  cases hA : st.agents cid with
  | none => rfl
  | some sid => simp [stopAgent, h]

theorem disposeAgent_createdFor (st : ServiceState) (cid : String) :
    (disposeAgent st cid).createdFor = st.createdFor := by
  unfold disposeAgent
  cases st.agents cid <;> rfl

theorem disposeAgent_nextId (st : ServiceState) (cid : String) :
    (disposeAgent st cid).nextId = st.nextId := by
  unfold disposeAgent
  cases st.agents cid <;> rfl

theorem disposeAgent_aborted_of_resident (st : ServiceState) (cid : String)
    (sid : Nat) (h : st.agents cid = some sid) :
    (disposeAgent st cid).aborted sid = true := by
  unfold disposeAgent
  rw [h]
  simp [stopAgent]

theorem create_cases (env : Env) (st : ServiceState) (chat : AgentChat)
    (ms : Option ModelSelection) :
    (createOk env chat ms = false ∧
      (create env st chat ms).2 = disposeAgent st chat.id) ∨
    (createOk env chat ms = true ∧
      (create env st chat ms).1 = Except.ok (disposeAgent st chat.id).nextId ∧
      (create env st chat ms).2 =
        { disposeAgent st chat.id with
          agents := fun c =>
            if c = chat.id then some (disposeAgent st chat.id).nextId
            else (disposeAgent st chat.id).agents c
          createdFor := (disposeAgent st chat.id).createdFor ++
            [(chat.id, (disposeAgent st chat.id).nextId)]
          nextId := (disposeAgent st chat.id).nextId + 1 }) := by
  cases hres : getResolvedModelSelection env chat.projectId ms with
  | error e =>
    refine Or.inl ⟨?_, ?_⟩ <;> simp [create, createOk, hres]
  | ok rms =>
    cases hcfg : getModelConfig env chat.projectId rms with
    | error e =>
      refine Or.inl ⟨?_, ?_⟩ <;> simp [create, createOk, hres, hcfg]
    | ok cfg =>
      refine Or.inr ⟨?_, ?_, ?_⟩ <;> simp [create, createOk, hres, hcfg]

theorem regInv_init : RegInv initState := by
  constructor
  · intro c sid h
    simp [initState] at h
  · intro c sid h
    simp [initState] at h

theorem regInv_disposeAgent (st : ServiceState) (cid : String)
    (h : RegInv st) : RegInv (disposeAgent st cid) := by
  obtain ⟨h1, h2⟩ := h
  unfold disposeAgent
  cases hA : st.agents cid with
  | none => exact ⟨h1, h2⟩
  | some sid0 =>
    constructor
    · intro c sid hc
      by_cases he : c = cid
      · simp [he] at hc
      · simp [he, stopAgent] at hc
        exact h1 c sid hc
    · intro c sid hc
      simp only [stopAgent] at hc ⊢
      rcases h2 c sid hc with hres | hab
      · by_cases he : c = cid
        · subst he
          rw [hA] at hres
          injection hres with hs
          subst hs
          right
          simp
        · left
          simp [he]
          exact hres
      · right
        by_cases hs : sid = sid0 <;> simp [hs, hab]

theorem regInv_create (env : Env) (st : ServiceState) (chat : AgentChat)
    (ms : Option ModelSelection) (h : RegInv st) :
    RegInv (create env st chat ms).2 := by
  have hD : RegInv (disposeAgent st chat.id) := regInv_disposeAgent st chat.id h
  rcases create_cases env st chat ms with ⟨_, hst⟩ | ⟨_, _, hst⟩
  · rw [hst]
    exact hD
  · rw [hst]
    obtain ⟨h1, h2⟩ := hD
    constructor
    · intro c sid hc
      by_cases he : c = chat.id
      · simp only [he, if_pos rfl] at hc
        injection hc with hs
        subst hs
        subst he
        exact List.mem_append.mpr (Or.inr (List.mem_singleton.mpr rfl))
      · simp only [if_neg he] at hc
        exact List.mem_append.mpr (Or.inl (h1 c sid hc))
    · intro c sid hc
      rcases List.mem_append.mp hc with hold | hnew
      · rcases h2 c sid hold with hres | hab
        · left
          have he : ¬(c = chat.id) := by
            intro he
            subst he
            rw [disposeAgent_agents_self] at hres
            cases hres
          simp only [if_neg he]
          exact hres
        · right
          exact hab
      · left
        have hp := List.mem_singleton.mp hnew
        have hc1 : c = chat.id := congrArg Prod.fst hp
        have hs1 : sid = (disposeAgent st chat.id).nextId := congrArg Prod.snd hp
        subst hc1
        subst hs1
        simp

theorem regInv_runCreates (env : Env) (reqs : List CreateReq) :
    ∀ st : ServiceState, RegInv st → RegInv (runCreates env st reqs) := by
  induction reqs with
  | nil =>
    intro st h
    exact h
  | cons r rs ih =>
    intro st h
    exact ih _ (regInv_create env st r.chat r.modelSelection h)

theorem create_ok_resident (env : Env) (st : ServiceState) (chat : AgentChat)
    (ms : Option ModelSelection) (h : createOk env chat ms = true) :
    (create env st chat ms).2.agents chat.id =
      some (disposeAgent st chat.id).nextId := by
  rcases create_cases env st chat ms with ⟨hf, _⟩ | ⟨_, _, hst⟩
  · rw [h] at hf
    cases hf
  · rw [hst]
    simp

theorem runCreates_resident (env : Env) (c : String) :
    ∀ (reqs : List CreateReq), ∀ st : ServiceState, ¬(reqs = []) →
      (∀ r ∈ reqs, r.chat.id = c) →
      (∀ r ∈ reqs, createOk env r.chat r.modelSelection = true) →
      ∃ sid, (runCreates env st reqs).agents c = some sid := by
  intro reqs
  induction reqs with
  | nil =>
    intro st hne _ _
    exact absurd rfl hne
  | cons r rs ih =>
    intro st _ hall hok
    cases rs with
    | nil =>
      refine ⟨(disposeAgent st r.chat.id).nextId, ?_⟩
      have hr := create_ok_resident env st r.chat r.modelSelection
        (hok r (List.mem_cons_self r []))
      have hid : r.chat.id = c := hall r (List.mem_cons_self r [])
      rw [← hid]
      exact hr
    | cons r2 rs2 =>
      exact ih _ (List.cons_ne_nil r2 rs2)
        (fun x hx => hall x (List.mem_cons_of_mem r hx))
        (fun x hx => hok x (List.mem_cons_of_mem r hx))

/-- C1: after any non-empty sequence of successful create calls for a
conversation id, exactly one session is resident in the registry for that
id (the registry maps the id to a unique session), that session was
created for the id, and every other session ever created for the id has
had stop invoked. -/
theorem c1_at_most_one_session (env : Env) (reqs : List CreateReq) (c : String)
    (hne : ¬(reqs = []))
    (hall : ∀ r ∈ reqs, r.chat.id = c)
    (hok : ∀ r ∈ reqs, createOk env r.chat r.modelSelection = true) :
    ∃ sid, (runCreates env initState reqs).agents c = some sid ∧
      (c, sid) ∈ (runCreates env initState reqs).createdFor ∧
      (∀ sid2, (runCreates env initState reqs).agents c = some sid2 →
        sid2 = sid) ∧
      (∀ sid2, (c, sid2) ∈ (runCreates env initState reqs).createdFor →
        ¬(sid2 = sid) →
        (runCreates env initState reqs).aborted sid2 = true) := by
  obtain ⟨sid, hsid⟩ := runCreates_resident env c reqs initState hne hall hok
  obtain ⟨h1, h2⟩ := regInv_runCreates env reqs initState regInv_init
  refine ⟨sid, hsid, h1 c sid hsid, ?_, ?_⟩
  · intro sid2 h
    rw [hsid] at h
    injection h with h
    exact h.symm
  · intro sid2 hmem hne2
    rcases h2 c sid2 hmem with hres | hab
    · rw [hsid] at hres
      injection hres with h
      exact absurd h.symm hne2
    · exact hab

/-- Witness for C1: in an environment whose first tier resolves (a stored
config for project p1), two successive creates for conversation c1 leave
exactly one resident session; the evicted first session has had stop
invoked. -/
theorem c1_witness :
    ∃ sid, (runCreates envA initState reqsC1).agents "c1" = some sid ∧
      ("c1", sid) ∈ (runCreates envA initState reqsC1).createdFor ∧
      (∀ sid2, (runCreates envA initState reqsC1).agents "c1" = some sid2 →
        sid2 = sid) ∧
      (∀ sid2, ("c1", sid2) ∈ (runCreates envA initState reqsC1).createdFor →
        ¬(sid2 = sid) →
        (runCreates envA initState reqsC1).aborted sid2 = true) :=
  c1_at_most_one_session envA reqsC1 "c1" (by simp [reqsC1])
    (by decide) (by decide)

/-- C8: AgentManager.stop is idempotent, and it neither invokes the
disposal callback nor changes any registry entry. -/
theorem c8_stop_idempotent_frame (st : ServiceState) (sid : Nat) :
    stopAgent (stopAgent st sid) sid = stopAgent st sid ∧
    (stopAgent st sid).agents = st.agents ∧
    (stopAgent st sid).disposeCount = st.disposeCount := by
  refine ⟨?_, rfl, rfl⟩
  unfold stopAgent
  congr 1
  funext i
  by_cases h : i = sid <;> simp [h]

/-- C9: if create fails while a session for the same conversation id was
resident, the resulting registry has no session for that id and the prior
session has had stop invoked: a failed create does not preserve the
pre-existing session. -/
theorem c9_failed_create_evicts (env : Env) (st : ServiceState)
    (chat : AgentChat) (ms : Option ModelSelection) (sid : Nat)
    (hres : st.agents chat.id = some sid)
    (hfail : (create env st chat ms).1 = Except.error noModelConfigMsg) :
    (create env st chat ms).2.agents chat.id = none ∧
      (create env st chat ms).2.aborted sid = true := by
  rcases create_cases env st chat ms with ⟨_, hst⟩ | ⟨_, hok1, _⟩
  · rw [hst]
    exact ⟨disposeAgent_agents_self st chat.id,
           disposeAgent_aborted_of_resident st chat.id sid hres⟩
  · rw [hok1] at hfail
    exact Except.noConfusion hfail

/-- Witness for C9: in the empty environment, create for c1 fails with
the no-model-config error; the session (id 7) that was resident for c1 is
evicted and stopped. -/
theorem c9_witness :
    (create envNone stResident chatC1 none).2.agents chatC1.id = none ∧
      (create envNone stResident chatC1 none).2.aborted 7 = true :=
  c9_failed_create_evicts envNone stResident chatC1 none 7 rfl rfl

/-! ### Claims C2, C6, C10: terminal handling -/

/-- C2 counterexample: in the generate path a terminal error outcome (a
rejection of the underlying generation, which is also how cancellation
surfaces there) invokes the disposal callback zero times, not exactly
once, refuting disposal-exactly-once for the generate path. -/
theorem c2_counterexample :
    countDispose (generateRun (GenOutcome.err "provider failure")).2 = 0 ∧
    ¬(countDispose (generateRun (GenOutcome.err "provider failure")).2 = 1) := by
  decide

/-- C2 amended: the disposal callback fires exactly once for every
terminal outcome of the stream path (success, error and cancellation all
flow through onFinish), and exactly once on successful completion of the
generate path; on a generate rejection (error or cancellation) the
exception propagates before the disposal statement, which is then not
invoked at all. -/
theorem c2_disposal_amended :
    (∀ (chatId : String) (ms : ModelSelection) (error : Option String)
        (e : StreamFinishEvent),
        countDispose (streamOnFinish chatId ms error e) = 1) ∧
    (∀ r : GenerateResult,
        countDispose (generateRun (GenOutcome.ok r)).2 = 1) ∧
    (∀ e : String, countDispose (generateRun (GenOutcome.err e)).2 = 0) :=
  ⟨fun _ _ _ _ => rfl, fun _ => rfl, fun _ => rfl⟩

/-- C6: the stream path persists exactly one terminal message, through
the normal upsert (also when aborted, never through an error path), and
its stop reason is interrupted when the run was aborted — regardless of
the primitive finish reason — and the primitive finish reason
otherwise. -/
theorem c6_cancel_interrupted (chatId : String) (ms : ModelSelection)
    (error : Option String) (e : StreamFinishEvent) :
    ∃ rec : PersistRecord,
      streamOnFinish chatId ms error e =
        [Effect.upsertMessage rec, Effect.dispose] ∧
      rec.stopReason = (if e.isAborted then "interrupted" else e.finishReason) :=
  ⟨_, rfl, rfl⟩

/-- C10: when the underlying generation result carries no finish reason,
the result returned by generate has finishReason stop. -/
theorem c10_default_finish_stop (r : GenerateResult)
    (h : r.finishReason = none) :
    (generateRun (GenOutcome.ok r)).1 =
      Except.ok { text := r.text
                  finishReason := "stop"
                  responseMessages := r.responseMessages } := by
  simp [generateRun, h]

/-- Witness for C10: a concrete result with an absent finish reason. -/
theorem c10_witness :
    (generateRun (GenOutcome.ok
        { text := "hi", finishReason := none, responseMessages := [] })).1 =
      Except.ok { text := "hi", finishReason := "stop", responseMessages := [] } :=
  c10_default_finish_stop
    { text := "hi", finishReason := none, responseMessages := [] } rfl

/-! ### Claims C3 and C7: resolution and config loading -/

/-- C3: the resolver returns an explicit selection verbatim; otherwise
the first stored project config, paired with that provider default model
id; otherwise the first environment selection; otherwise it fails with
the no-model-config error. -/
theorem c3_resolution_order (env : Env) (projectId : String) :
    (∀ ms : ModelSelection,
        getResolvedModelSelection env projectId (some ms) = Except.ok ms) ∧
    (∀ cfg rest, env.getProjectLlmConfigs projectId = cfg :: rest →
        getResolvedModelSelection env projectId none =
          Except.ok { provider := cfg.provider
                      modelId := env.getDefaultModelId cfg.provider }) ∧
    (env.getProjectLlmConfigs projectId = [] →
      ∀ sel rest, env.getEnvModelSelections = sel :: rest →
        getResolvedModelSelection env projectId none = Except.ok sel) ∧
    (env.getProjectLlmConfigs projectId = [] →
      env.getEnvModelSelections = [] →
      getResolvedModelSelection env projectId none =
        Except.error noModelConfigMsg) := by
  refine ⟨fun ms => rfl, ?_, ?_, ?_⟩
  · intro cfg rest h
    simp [getResolvedModelSelection, h]
  · intro h1 sel rest h2
    simp [getResolvedModelSelection, h1, h2]
  · intro h1 h2
    simp [getResolvedModelSelection, h1, h2]

/-- Witness for C3: explicit selection wins; with a stored config for
providerA the resolver returns providerA and its default model even
though an environment credential for providerB exists; with no stored
config the first environment selection is returned; with neither, the
no-model-config error. -/
theorem c3_witness :
    getResolvedModelSelection envA "p0"
        (some { provider := "providerX", modelId := "modelX" }) =
      Except.ok { provider := "providerX", modelId := "modelX" } ∧
    getResolvedModelSelection envA "p1" none =
      Except.ok { provider := "providerA", modelId := "providerA-default" } ∧
    getResolvedModelSelection envA "p2" none =
      Except.ok { provider := "providerB", modelId := "modelB" } ∧
    getResolvedModelSelection envNone "p1" none =
      Except.error noModelConfigMsg := by
  refine ⟨(c3_resolution_order envA "p0").1 _, ?_, ?_, ?_⟩
  · exact (c3_resolution_order envA "p1").2.1
      { provider := "providerA", apiKey := "storedKeyA"
        baseUrl := some "https://a.example" } [] rfl
  · exact (c3_resolution_order envA "p2").2.2.1 rfl
      { provider := "providerB", modelId := "modelB" } [] rfl
  · exact (c3_resolution_order envNone "p1").2.2.2 rfl rfl

/-- C7: a stored per-project config for the selected provider is used
atomically (its key together with its own base URL when present, no base
URL when absent); only with no stored config is the environment key used,
and then with no base URL; with neither source the loader fails with the
no-model-config error. A stored base URL is never paired with an
environment key nor an environment key with a stored base URL. -/
theorem c7_config_precedence (env : Env) (projectId : String)
    (ms : ModelSelection) :
    (∀ cfg u, env.getProjectLlmConfigByProvider projectId ms.provider = some cfg →
        cfg.baseUrl = some u → ¬(u = "") →
        getModelConfig env projectId ms =
          Except.ok { provider := ms.provider
                      settings := { apiKey := cfg.apiKey, baseURL := some u }
                      modelId := ms.modelId }) ∧
    (∀ cfg, env.getProjectLlmConfigByProvider projectId ms.provider = some cfg →
        cfg.baseUrl = none →
        getModelConfig env projectId ms =
          Except.ok { provider := ms.provider
                      settings := { apiKey := cfg.apiKey, baseURL := none }
                      modelId := ms.modelId }) ∧
    (env.getProjectLlmConfigByProvider projectId ms.provider = none →
      ∀ k, env.getEnvApiKey ms.provider = some k →
        getModelConfig env projectId ms =
          Except.ok { provider := ms.provider
                      settings := { apiKey := k, baseURL := none }
                      modelId := ms.modelId }) ∧
    (env.getProjectLlmConfigByProvider projectId ms.provider = none →
      env.getEnvApiKey ms.provider = none →
      getModelConfig env projectId ms = Except.error noModelConfigMsg) := by
  refine ⟨?_, ?_, ?_, ?_⟩
  · intro cfg u hcfg hbu hu
    simp [getModelConfig, hcfg, hbu, hu]
  · intro cfg hcfg hbu
    simp [getModelConfig, hcfg, hbu]
  · intro hcfg k hk
    simp [getModelConfig, hcfg, hk]
  · intro hcfg hk
    simp [getModelConfig, hcfg, hk]

/-- Witness for C7: a stored config with a base URL is used whole; a
stored config without one yields no base URL; an environment key is used
with no base URL when no stored config exists; and the empty environment
fails. -/
theorem c7_witness :
    getModelConfig envA "p1" { provider := "providerA", modelId := "m1" } =
      Except.ok { provider := "providerA"
                  settings := { apiKey := "storedKeyA"
                                baseURL := some "https://a.example" }
                  modelId := "m1" } ∧
    getModelConfig envStoredNoUrl "p1"
        { provider := "providerC", modelId := "m2" } =
      Except.ok { provider := "providerC"
                  settings := { apiKey := "keyC", baseURL := none }
                  modelId := "m2" } ∧
    getModelConfig envA "p1" { provider := "providerB", modelId := "m3" } =
      Except.ok { provider := "providerB"
                  settings := { apiKey := "envKeyB", baseURL := none }
                  modelId := "m3" } ∧
    getModelConfig envNone "p1" { provider := "providerA", modelId := "m4" } =
      Except.error noModelConfigMsg := by
  refine ⟨?_, ?_, ?_, ?_⟩
  · exact (c7_config_precedence envA "p1"
      { provider := "providerA", modelId := "m1" }).1
      { provider := "providerA", apiKey := "storedKeyA"
        baseUrl := some "https://a.example" }
      "https://a.example" rfl rfl (by decide)
  · exact (c7_config_precedence envStoredNoUrl "p1"
      { provider := "providerC", modelId := "m2" }).2.1
      { provider := "providerC", apiKey := "keyC", baseUrl := none } rfl rfl
  · exact (c7_config_precedence envA "p1"
      { provider := "providerB", modelId := "m3" }).2.2.1 rfl "envKeyB" rfl
  · exact (c7_config_precedence envNone "p1"
      { provider := "providerA", modelId := "m4" }).2.2.2 rfl rfl

/-- Witness for C4: on [system, user, assistant] for anthropic, the
system head gets the 1h marker, the interior user message is unchanged,
and the assistant tail gets the 5m marker; a singleton system message
gets only the 1h marker; empty input and a non-caching provider are
returned unchanged. -/
theorem c4_witness :
    withAnthropicCache [msgSys, msgUser] "openai" = [msgSys, msgUser] ∧
    withAnthropicCache [] "anthropic" = [] ∧
    (withAnthropicCache [msgSys, msgUser, msgAsst] "anthropic")[0]? =
      some (withCache msgSys CacheTTL.oneHour) ∧
    (withAnthropicCache [msgSys, msgUser, msgAsst] "anthropic")[1]? =
      [msgSys, msgUser, msgAsst][1]? ∧
    (withAnthropicCache [msgSys, msgUser, msgAsst] "anthropic")[2]? =
      some (withCache msgAsst CacheTTL.fiveMin) ∧
    withAnthropicCache [msgSys] "anthropic" =
      [withCache msgSys CacheTTL.oneHour] := by
  refine ⟨c4_cache_policy.1 [msgSys, msgUser] "openai" (by decide),
          c4_cache_policy.2.1 "anthropic", ?_, ?_, ?_, ?_⟩
  · rw [c4_cache_policy.2.2.1 msgSys [msgUser, msgAsst]]
    rfl
  · exact c4_cache_policy.2.2.2.1 [msgSys, msgUser, msgAsst] 1
      (by decide) (by decide)
  · rw [c4_cache_policy.2.2.2.2.1 [msgSys, msgUser, msgAsst] 2
      (by decide) (by decide)]
    rfl
  · rw [c4_cache_policy.2.2.2.2.2 msgSys]
    rfl

end Nao
